import Mathlib

/-!
Verification of the TowTrack CRM trip lifecycle & cost engine.

Shallow embedding of the server code:
* `shared/schema.ts`   — data model (`users`, `clients`, `trips` tables, enums)
* `server/storage.ts`  — `DatabaseStorage` operations (`getTrips`, `getTrip`,
  `createTrip`, `updateTrip`, `reviewTrip`, `deleteClient`, `getClient`, `getUser`)
* `server/routes.ts`   — the Express handlers for `/api/trips`, `/api/trips/:id`,
  `PATCH /api/trips/:id`, `PATCH /api/trips/:id/review`, `POST /api/trips`,
  `DELETE /api/clients/:id`

The database is modelled as explicit state (`DB`), each storage method as a pure
function threading that state.  Decimal columns (`distance_km`, `rate_per_km`,
`cost_calculated`) hold exact rational values; the JavaScript arithmetic the code
performs on them (`Number(...)`, `*`, `.toFixed(2)`) is modelled exactly as
IEEE-754 binary64 arithmetic over rationals.
-/

namespace TowCrm

/-! ## IEEE-754 binary64 model

`Number(trip.distanceKm) * Number(client.ratePerKm)` in `storage.ts` parses the
decimal strings to binary64 doubles and multiplies them with a correctly rounded
(round-to-nearest, ties-to-even) multiplication.  We model a double as the exact
rational value it denotes, and `fl` as the rounding of an arbitrary rational to
the nearest double, for the normal range (53-bit significand); subnormals and
overflow do not arise for the decimal(10,2) columns involved. -/

/-- `2 ^ e` for an integer exponent, as a rational. -/
def pow2Z (e : ℤ) : ℚ :=
  if 0 ≤ e then ((2 : ℚ) ^ e.toNat) else ((2 : ℚ) ^ (-e).toNat)⁻¹

/-- Fuel-driven search: halve while `2 ≤ q`, accumulating the exponent. -/
def lgUp : Nat → ℚ → ℤ → ℤ
  | 0, _, e => e
  | f + 1, q, e => if 2 ≤ q then lgUp f (q / 2) (e + 1) else e

/-- Fuel-driven search: double while `q < 1`, accumulating the exponent. -/
def lgDown : Nat → ℚ → ℤ → ℤ
  | 0, _, e => e
  | f + 1, q, e => if q < 1 then lgDown f (2 * q) (e - 1) else e

/-- `⌊log₂ q⌋` for positive rationals.  Fuel 64 bounds the exponent search to
`[-64, 64]`, which covers every value of a decimal(10,2) column and every
product of two of them (magnitudes between 10⁻² and 10¹⁶). -/
def log2floorQ (q : ℚ) : ℤ :=
  if 2 ≤ q then lgUp 64 q 0 else if q < 1 then lgDown 64 q 0 else 0

/-- `⌊q⌋`: floor of a rational (floor division of numerator by denominator). -/
def qfloor (q : ℚ) : ℤ := q.num.fdiv (q.den : ℤ)

/-- Round a rational to the nearest integer, ties to even. -/
def roundHalfEven (m : ℚ) : ℤ :=
  let k := qfloor m
  let frac := m - (k : ℚ)
  if frac < 1 / 2 then k
  else if 1 / 2 < frac then k + 1
  else if k % 2 = 0 then k else k + 1

/-- Round a rational to the nearest IEEE-754 binary64 value (normal range):
the value of the JavaScript `Number` denoting it. -/
def fl (q : ℚ) : ℚ :=
  if q = 0 then 0
  else
    let s := if q < 0 then -q else q
    let e := log2floorQ s - 52
    let n := roundHalfEven (s / pow2Z e)
    (if q < 0 then -1 else 1) * (n : ℚ) * pow2Z e

/-- ECMA-262 `x.toFixed(2)`, as the integer number of cents: the integer `n`
minimising `|n / 100 - x|`, the larger `n` on ties; equivalently
`⌊100 x + 1/2⌋`. -/
def toFixed2 (x : ℚ) : ℤ := qfloor (100 * x + 1 / 2)

/-- The cost the code computes and persists:
`(Number(distanceKm) * Number(ratePerKm)).toFixed(2)`, i.e. binary64
multiplication of the two parsed decimals followed by `toFixed(2)`.  The
resulting decimal string is stored in the `cost_calculated` decimal(10,2)
column, whose exact value is `toFixed2 (...) / 100`. -/
def jsCostCalc (distanceKm ratePerKm : ℚ) : ℚ :=
  ((toFixed2 (fl (fl distanceKm * fl ratePerKm))) : ℚ) / 100

/-- Modelled from the spec: `round(distance * rate, 2)` in "fixed-point decimal
arithmetic ... two-decimal-place rounding, round-half-up" (spec §4.2).  Exact
rational product, rounded half-up at two decimals.  This is the spec-side
definition used only to compare against `jsCostCalc`, which is the one
translated from the code. -/
def specCostRound (distanceKm ratePerKm : ℚ) : ℚ :=
  ((qfloor (100 * (distanceKm * ratePerKm) + 1 / 2) : ℤ) : ℚ) / 100

/-! ## Data model (shared/schema.ts) -/

/-- `userRoleEnum = pgEnum("user_role", ["driver", "admin"])` -/
inductive Role where
  | driver
  | admin
deriving DecidableEq, Repr

/-- `tripStatusEnum = pgEnum("trip_status", ["draft", "submitted", "approved", "rejected"])` -/
inductive TripStatus where
  | draft
  | submitted
  | approved
  | rejected
deriving DecidableEq, Repr

/-- The status enum's wire string, as compared by `eq(trips.status, filters.status)`. -/
def TripStatus.str : TripStatus → String
  | .draft => "draft"
  | .submitted => "submitted"
  | .approved => "approved"
  | .rejected => "rejected"

/-- A row of the `users` table (fields the rule engine reads). -/
structure User where
  id : String
  role : Role
deriving DecidableEq, Repr

/-- A row of the `clients` table (fields the rule engine reads);
`ratePerKm` is the exact value of the decimal(10,2) `rate_per_km` column. -/
structure Client where
  id : Nat
  name : String
  ratePerKm : ℚ
deriving DecidableEq, Repr

/-- A row of the `trips` table (fields the rule engine reads or writes).
`distanceKm` and `costCalculated` are the exact values of the decimal(10,2)
columns; `tripDate` is the timestamp used by `orderBy(desc(trips.tripDate))`. -/
structure Trip where
  id : Nat
  driverId : String
  clientId : Option Nat
  distanceKm : ℚ
  tripDate : Int
  status : TripStatus
  notes : Option String
  adminNotes : Option String
  costCalculated : Option ℚ
deriving DecidableEq, Repr

/-- The relational store: the three tables plus the `trips` identity sequence. -/
structure DB where
  users : List User
  clients : List Client
  trips : List Trip
  nextTripId : Nat
deriving DecidableEq, Repr

/-! ## Storage layer (server/storage.ts, class DatabaseStorage) -/

/-- `getUser(id)`: `select().from(users).where(eq(users.id, id))`. -/
def getUser (db : DB) (id : String) : Option User :=
  db.users.find? (fun u => u.id == id)

/-- `getClient(id)`: `select().from(clients).where(eq(clients.id, id))`. -/
def getClient (db : DB) (id : Nat) : Option Client :=
  db.clients.find? (fun c => c.id == id)

/-- Insert a trip in `orderBy(desc(trips.tripDate))` position. -/
def insertDesc (t : Trip) : List Trip → List Trip
  | [] => [t]
  | u :: us => if u.tripDate ≤ t.tripDate then t :: u :: us else u :: insertDesc t us

/-- `orderBy(desc(trips.tripDate))` on a result set. -/
def sortByDateDesc : List Trip → List Trip
  | [] => []
  | t :: ts => insertDesc t (sortByDateDesc ts)

/-- `getTrips(driverId?)`: `findMany` with `where: driverId ? eq(trips.driverId, driverId) : undefined`,
ordered by trip date descending.  (The `with: {driver, client}` relation join
only decorates rows and is not modelled.) -/
def getTrips (db : DB) (driverId : Option String) : List Trip :=
  sortByDateDesc (match driverId with
    | some d => db.trips.filter (fun t => t.driverId == d)
    | none => db.trips)

/-- `TripFilters` (storage.ts): all fields optional. -/
structure TripFilters where
  startDate : Option Int := none
  endDate : Option Int := none
  driverId : Option String := none
  clientId : Option Nat := none
  status : Option String := none
  minDistance : Option ℚ := none
  maxDistance : Option ℚ := none
  limit : Option Nat := none
deriving DecidableEq, Repr

/-- The AND-combined `conditions` array of `getAllTrips`.  Each `if (filters?.x)`
is a JavaScript truthiness test, so an empty-string or zero filter value is
skipped exactly as the code skips it. -/
def tripMatches (f : TripFilters) (t : Trip) : Bool :=
  (match f.startDate with | some d => decide (d ≤ t.tripDate) | none => true) &&
  (match f.endDate with | some d => decide (t.tripDate ≤ d) | none => true) &&
  (match f.driverId with | some d => if d ≠ "" then t.driverId == d else true | none => true) &&
  (match f.clientId with | some c => if c ≠ 0 then t.clientId == some c else true | none => true) &&
  (match f.status with | some s => if s ≠ "" then t.status.str == s else true | none => true) &&
  (match f.minDistance with | some m => if m ≠ 0 then decide (m ≤ t.distanceKm) else true | none => true) &&
  (match f.maxDistance with | some m => if m ≠ 0 then decide (t.distanceKm ≤ m) else true | none => true)

/-- `getAllTrips(filters?)`: filtered `findMany`, ordered by trip date
descending, truncated by `limit`. -/
def getAllTrips (db : DB) (f : TripFilters) : List Trip :=
  let rs := sortByDateDesc (db.trips.filter (tripMatches f))
  match f.limit with
  | some n => rs.take n
  | none => rs

/-- `getTrip(id, driverId?)`: `findFirst` with conditions `eq(trips.id, id)`
plus, when a driver scope is supplied, `eq(trips.driverId, driverId)`. -/
def getTrip (db : DB) (id : Nat) (driverId : Option String) : Option Trip :=
  db.trips.find? (fun t =>
    t.id == id && (match driverId with | some d => t.driverId == d | none => true))

/-- `deleteClient(id)`: counts trips with `eq(trips.clientId, id)`; if the count
is positive returns `false` without touching anything, otherwise deletes the
client row and returns `true`. -/
def deleteClient (db : DB) (id : Nat) : Bool × DB :=
  if 0 < (db.trips.filter (fun t => t.clientId == some id)).length then
    (false, db)
  else
    (true, { db with clients := db.clients.filter (fun c => !(c.id == id)) })

/-- `InsertTrip` (insertTripSchema's parse result: the trip columns minus
`id`, `createdAt`, `updatedAt`, `costCalculated`).  Note `status` and
`adminNotes` are NOT omitted by the schema. -/
structure InsertTrip where
  driverId : String
  clientId : Option Nat
  distanceKm : ℚ
  tripDate : Int
  status : TripStatus
  notes : Option String
  adminNotes : Option String
deriving DecidableEq, Repr

/-- The cost block shared verbatim by `createTrip` and `updateTrip`:
`if (clientId) { const client = await this.getClient(clientId); if (client)
costCalculated = (Number(distance) * Number(client.ratePerKm)).toFixed(2); }`.
The outer test is JavaScript truthiness, so a zero id is falsy. -/
def resolveCost (db : DB) (clientId : Option Nat) (distance : ℚ) : Option ℚ :=
  match clientId with
  | some cid =>
    if cid ≠ 0 then
      match getClient db cid with
      | some c => some (jsCostCalc distance c.ratePerKm)
      | none => none
    else none
  | none => none

/-- `createTrip(trip)`: computes `costCalculated` from the payload's client and
distance, then inserts `{...trip, costCalculated}` (an undefined
`costCalculated` leaves the column NULL). -/
def createTrip (db : DB) (trip : InsertTrip) : Trip × DB :=
  let costCalculated := resolveCost db trip.clientId trip.distanceKm
  let newTrip : Trip :=
    { id := db.nextTripId
      driverId := trip.driverId
      clientId := trip.clientId
      distanceKm := trip.distanceKm
      tripDate := trip.tripDate
      status := trip.status
      notes := trip.notes
      adminNotes := trip.adminNotes
      costCalculated := costCalculated }
  (newTrip, { db with trips := db.trips ++ [newTrip], nextTripId := db.nextTripId + 1 })

/-- `Partial<InsertTrip>`: each field may be absent (`none`).  For the nullable
columns a present field may itself carry SQL NULL (`some none`), matching a
JSON `null` in the request body. -/
structure TripPatch where
  driverId : Option String := none
  clientId : Option (Option Nat) := none
  distanceKm : Option ℚ := none
  tripDate : Option Int := none
  status : Option TripStatus := none
  notes : Option (Option String) := none
  adminNotes : Option (Option String) := none
deriving DecidableEq, Repr

/-- `sanitizedData.clientId ?? existingTrip.clientId` — JavaScript nullish
coalescing: both an absent field and an explicit `null` fall back to the
existing trip's clientId. -/
def effClientId (p : TripPatch) (t : Trip) : Option Nat :=
  match p.clientId with
  | some (some c) => some c
  | _ => t.clientId

/-- `sanitizedData.distanceKm ?? existingTrip.distanceKm`. -/
def effDistance (p : TripPatch) (t : Trip) : ℚ :=
  match p.distanceKm with
  | some d => d
  | none => t.distanceKm

/-- Apply `.set({ ...sanitizedData, costCalculated, updatedAt })` to a row.
drizzle-orm skips `undefined` entries of a `.set` object, so an absent patch
field — including an undefined `costCalculated` — leaves that column as it
was; a present `null` writes SQL NULL. -/
def applyPatch (t : Trip) (p : TripPatch) (costCalculated : Option ℚ) : Trip :=
  { t with
    driverId := match p.driverId with | some d => d | none => t.driverId
    clientId := match p.clientId with | some v => v | none => t.clientId
    distanceKm := match p.distanceKm with | some d => d | none => t.distanceKm
    tripDate := match p.tripDate with | some d => d | none => t.tripDate
    status := match p.status with | some s => s | none => t.status
    notes := match p.notes with | some v => v | none => t.notes
    adminNotes := match p.adminNotes with | some v => v | none => t.adminNotes
    costCalculated := match costCalculated with | some v => some v | none => t.costCalculated }

/-- `updateTrip(id, tripData, driverId?)`: reads the existing trip under the
driver scope (returning `undefined` when it is not visible), deletes
`driverId` from the payload when a driver scope is present, recomputes the
cost from the effective client and distance, and updates the row matched by
`eq(trips.id, id)` (plus the driver scope). -/
def updateTrip (db : DB) (id : Nat) (tripData : TripPatch) (driverId : Option String) :
    Option Trip × DB :=
  match getTrip db id driverId with
  | none => (none, db)
  | some existingTrip =>
    let sanitizedData :=
      if driverId.isSome then { tripData with driverId := none } else tripData
    let costCalculated :=
      resolveCost db (effClientId sanitizedData existingTrip)
        (effDistance sanitizedData existingTrip)
    let updated := applyPatch existingTrip sanitizedData costCalculated
    (some updated,
      { db with trips := db.trips.map (fun u =>
          if u.id == id &&
             (match driverId with | some d => u.driverId == d | none => true)
          then updated else u) })

/-- `reviewTrip(id, status, adminNotes?)`: sets `status` and `adminNotes`
unconditionally on the row with `eq(trips.id, id)` — the previous status is
never read.  An undefined `adminNotes` is skipped by drizzle's `.set`. -/
def reviewTrip (db : DB) (id : Nat) (status : TripStatus) (adminNotes : Option String) :
    Option Trip × DB :=
  match db.trips.find? (fun t => t.id == id) with
  | none => (none, db)
  | some t =>
    let updated := { t with
      status := status
      adminNotes := match adminNotes with | some s => some s | none => t.adminNotes }
    (some updated,
      { db with trips := db.trips.map (fun u => if u.id == id then updated else u) })

/-! ## Route layer (server/routes.ts)

Each Express handler becomes a function from the request data and the database
state to a response and the new state.  `isAuthenticated` is modelled by the
presence of the caller's `userId`; `isAdmin` (replitAuth) rejects with 403 when
the stored user's role is not `admin`. -/

/-- An HTTP response: `res.status(code).json(body)` on success or
`res.status(code).json({ message })` on failure. -/
inductive Response (α : Type) where
  | ok (code : Nat) (body : α)
  | fail (code : Nat) (message : String)
deriving DecidableEq, Repr

/-- `user?.role === "admin"` for the looked-up caller (false when the user row
is missing). -/
def isAdminUser (db : DB) (userId : String) : Bool :=
  match getUser db userId with
  | some u => u.role == Role.admin
  | none => false

/-- The query parameters `GET /api/trips` may receive.  The handler reads only
`limit` and `status`, and only for admins; `driverId` (the owner filter a
caller might try to smuggle in) is carried here to state that it is ignored. -/
structure TripsQuery where
  limit : Option Nat := none
  status : Option String := none
  driverId : Option String := none
  clientId : Option Nat := none
  startDate : Option Int := none
  endDate : Option Int := none
deriving DecidableEq, Repr

/-- `GET /api/trips`: an admin supplying `limit` or `status` gets
`getAllTrips({status?, limit?})`; everyone else — in particular every driver —
gets `getTrips(userId)`, their own trips, with every query parameter ignored. -/
def apiGetTrips (db : DB) (userId : String) (q : TripsQuery) : Response (List Trip) :=
  if isAdminUser db userId && (q.limit.isSome || q.status.isSome) then
    Response.ok 200 (getAllTrips db { status := q.status, limit := q.limit })
  else
    Response.ok 200 (getTrips db (some userId))

/-- `GET /api/trips/:id`: the storage lookup is scoped to the caller's id
unless the caller is an admin; a missing row answers 404 "Trip not found". -/
def apiGetTrip (db : DB) (userId : String) (tripId : Nat) : Response Trip :=
  let driverId := if isAdminUser db userId then none else some userId
  match getTrip db tripId driverId with
  | none => Response.fail 404 "Trip not found"
  | some trip => Response.ok 200 trip

/-- The JSON body of `PATCH /api/trips/:id`: a partial trip plus the
`costCalculated` and `id` properties the handler deletes before validation. -/
structure PatchBody where
  patch : TripPatch := {}
  costCalculated : Option ℚ := none
  id : Option Nat := none
deriving DecidableEq, Repr

/-- `PATCH /api/trips/:id`: looks the trip up under the caller's scope (404 when
invisible), refuses non-admin edits of non-{draft, submitted} trips with
403 "Cannot edit processed trips", strips `costCalculated` and `id` from the
body, and hands the rest to `updateTrip` under the same scope. -/
def apiPatchTrip (db : DB) (userId : String) (tripId : Nat) (body : PatchBody) :
    Response (Option Trip) × DB :=
  let driverId := if isAdminUser db userId then none else some userId
  match getTrip db tripId driverId with
  | none => (Response.fail 404 "Trip not found", db)
  | some existingTrip =>
    if !isAdminUser db userId &&
       !(existingTrip.status == TripStatus.draft ||
         existingTrip.status == TripStatus.submitted) then
      (Response.fail 403 "Cannot edit processed trips", db)
    else
      let validatedData := body.patch
      let (trip, db') := updateTrip db tripId validatedData driverId
      (Response.ok 200 trip, db')

/-- `PATCH /api/trips/:id/review` (admin only): `action` must be the string
"approve" or "reject"; the mapped status and the optional `adminNotes` are
written by `reviewTrip` with no precondition on the trip's current status. -/
def apiReviewTrip (db : DB) (userId : String) (tripId : Nat) (action : String)
    (adminNotes : Option String) : Response Trip × DB :=
  if !isAdminUser db userId then
    (Response.fail 403 "Forbidden: Admin access required", db)
  else if !(action == "approve" || action == "reject") then
    (Response.fail 400 "Invalid action", db)
  else
    let status := if action == "approve" then TripStatus.approved else TripStatus.rejected
    match reviewTrip db tripId status adminNotes with
    | (none, db') => (Response.fail 404 "Trip not found", db')
    | (some trip, db') => (Response.ok 200 trip, db')

/-- `DELETE /api/clients/:id` (admin only): a `false` from `deleteClient` —
the client still has trips — answers 400 "Cannot delete client with associated
trips"; otherwise 204. -/
def apiDeleteClient (db : DB) (userId : String) (clientId : Nat) :
    Response Unit × DB :=
  if !isAdminUser db userId then
    (Response.fail 403 "Forbidden: Admin access required", db)
  else
    match deleteClient db clientId with
    | (false, db') => (Response.fail 400 "Cannot delete client with associated trips", db')
    | (true, db') => (Response.ok 204 (), db')

/-- The JSON body of `POST /api/trips`: the insertable trip fields; `driverId`
is injected from the session and `tripDate` defaults to the current time, so
the body carries neither. -/
structure CreateTripBody where
  clientId : Option Nat := none
  distanceKm : ℚ
  tripDate : Option Int := none
  status : TripStatus := TripStatus.draft
  notes : Option String := none
  adminNotes : Option String := none
deriving DecidableEq, Repr

/-- `POST /api/trips`: builds `{...req.body, driverId: userId, tripDate: body
date or now}` and validates it with `insertTripSchema.parse`.  drizzle-zod maps
the decimal `distance_km` column to a plain string schema with no sign or range
constraint, and `status` to the enum already captured by `TripStatus`, so every
well-typed payload — negative distances included — passes validation and is
inserted by `createTrip`. -/
def apiCreateTrip (db : DB) (userId : String) (body : CreateTripBody) (now : Int) :
    Response Trip × DB :=
  let tripData : InsertTrip :=
    { driverId := userId
      clientId := body.clientId
      distanceKm := body.distanceKm
      tripDate := match body.tripDate with | some d => d | none => now
      status := body.status
      notes := body.notes
      adminNotes := body.adminNotes }
  let result := createTrip db tripData
  (Response.ok 201 result.1, result.2)

/-! ## Concrete instances used by witnesses and counterexamples -/

/-- A client with the default rate 1.50 €/km. -/
def clientAcme : Client := { id := 1, name := "Acme Towing", ratePerKm := 3 / 2 }

/-- A client with rate 2.00 €/km. -/
def clientBeta : Client := { id := 1, name := "Beta Logistics", ratePerKm := 2 }

def userDriver1 : User := { id := "d1", role := Role.driver }

def userDriver2 : User := { id := "d2", role := Role.driver }

def userAdmin : User := { id := "a1", role := Role.admin }

/-- A clientless draft trip owned by driver d1. -/
def tripD1 : Trip :=
  { id := 1, driverId := "d1", clientId := none, distanceKm := 12, tripDate := 5,
    status := TripStatus.draft, notes := none, adminNotes := none, costCalculated := none }

/-- An approved trip owned by driver d1. -/
def tripApproved : Trip :=
  { id := 2, driverId := "d1", clientId := none, distanceKm := 8, tripDate := 4,
    status := TripStatus.approved, notes := none, adminNotes := none, costCalculated := none }

/-- A trip of 10 km for client 1, with its cost 20.00 persisted. -/
def tripClient10 : Trip :=
  { id := 1, driverId := "d1", clientId := some 1, distanceKm := 10, tripDate := 3,
    status := TripStatus.draft, notes := none, adminNotes := none, costCalculated := some 20 }

/-- A store holding only client Acme (rate 1.50). -/
def dbAcme : DB := { users := [], clients := [clientAcme], trips := [], nextTripId := 1 }

/-- Insert payload: 0.35 km for client 1. -/
def insert035 : InsertTrip :=
  { driverId := "d1", clientId := some 1, distanceKm := 7 / 20, tripDate := 0,
    status := TripStatus.draft, notes := none, adminNotes := none }

/-- A store with client Acme and one trip of driver d1 referencing it. -/
def dbAcmeTrip : DB :=
  { users := [], clients := [clientAcme],
    trips := [{ tripClient10 with id := 3 }], nextTripId := 4 }

/-- Patch setting the distance to 0.35 km. -/
def patch035 : TripPatch := { distanceKm := some (7 / 20) }

/-- A store with driver d1 and their draft trip. -/
def dbDriver : DB :=
  { users := [userDriver1], clients := [], trips := [tripD1], nextTripId := 2 }

/-- A store with driver d1 and their approved trip. -/
def dbDriverApproved : DB :=
  { users := [userDriver1], clients := [], trips := [tripApproved], nextTripId := 3 }

/-- A store with drivers d1 and d2, and d1's draft trip. -/
def dbTwoDrivers : DB :=
  { users := [userDriver1, userDriver2], clients := [], trips := [tripD1], nextTripId := 2 }

/-- A store with admin a1 and d1's draft (not submitted) trip. -/
def dbAdminDraft : DB :=
  { users := [userAdmin], clients := [], trips := [tripD1], nextTripId := 2 }

/-- A store with admin a1, client Beta (rate 2.00) and the 10 km trip
referencing it. -/
def dbStale : DB :=
  { users := [userAdmin], clients := [clientBeta], trips := [tripClient10], nextTripId := 2 }

/-- A store with admin a1, client Acme and no trips. -/
def dbAdminNoRef : DB :=
  { users := [userAdmin], clients := [clientAcme], trips := [], nextTripId := 1 }

/-- PATCH body a driver could send to self-approve: `{"status": "approved"}`. -/
def approveBody : PatchBody := { patch := { status := some TripStatus.approved } }

/-- PATCH body editing the notes only. -/
def notesBody : PatchBody := { patch := { notes := some (some "late pickup") } }

/-- PATCH body removing the client: `{"clientId": null}`. -/
def removeClientPatch : TripPatch := { clientId := some none }

/-- PATCH payload trying to reassign the trip to driver d2. -/
def reassignPatch : TripPatch := { driverId := some "d2" }

/-- POST body with a negative distance. -/
def negDistanceBody : CreateTripBody :=
  { clientId := some 1, distanceKm := -5, tripDate := some 0,
    status := TripStatus.submitted, notes := none, adminNotes := none }

/-! ## Helper lemmas: evaluating the numeric model -/

theorem qfloor_eq_floor (q : ℚ) : qfloor q = ⌊q⌋ := by
  rw [qfloor, Int.fdiv_eq_ediv _ (by positivity), Rat.floor_def]

theorem qfloor_eq {q : ℚ} {k : ℤ} (h1 : (k : ℚ) ≤ q) (h2 : q < (k : ℚ) + 1) :
    qfloor q = k := by
  rw [qfloor_eq_floor]
  exact Int.floor_eq_iff.mpr ⟨h1, by exact_mod_cast h2⟩

theorem roundHalfEven_lo {m : ℚ} {k : ℤ} (h1 : (k : ℚ) ≤ m) (h2 : m < (k : ℚ) + 1 / 2) :
    roundHalfEven m = k := by
  have hf : qfloor m = k := qfloor_eq h1 (by linarith)
  unfold roundHalfEven
  rw [hf, if_pos (by linarith)]

theorem roundHalfEven_hi {m : ℚ} {k : ℤ} (h1 : (k : ℚ) + 1 / 2 < m) (h2 : m < (k : ℚ) + 1) :
    roundHalfEven m = k + 1 := by
  have hf : qfloor m = k := qfloor_eq (by linarith) h2
  unfold roundHalfEven
  rw [hf, if_neg (by push_neg; linarith), if_pos (by linarith)]

theorem roundHalfEven_half_even {m : ℚ} {k : ℤ} (h : m = (k : ℚ) + 1 / 2) (he : k % 2 = 0) :
    roundHalfEven m = k := by
  have hf : qfloor m = k := qfloor_eq (by rw [h]; linarith) (by rw [h]; linarith)
  unfold roundHalfEven
  rw [hf, if_neg (by rw [h]; push_neg; linarith), if_neg (by rw [h]; push_neg; linarith),
    if_pos he]

theorem fl_pos_eq {q : ℚ} {e k : ℤ} (h0 : 0 < q) (hl : log2floorQ q = e)
    (hr : roundHalfEven (q / pow2Z (e - 52)) = k) :
    fl q = (k : ℚ) * pow2Z (e - 52) := by
  have hq0 : q ≠ 0 := ne_of_gt h0
  have hqn : ¬q < 0 := not_lt.mpr h0.le
  simp only [fl, if_neg hq0, if_neg hqn, hl, hr, one_mul]

theorem fl_neg_eq {q : ℚ} {e k : ℤ} (h0 : q < 0) (hl : log2floorQ (-q) = e)
    (hr : roundHalfEven (-q / pow2Z (e - 52)) = k) :
    fl q = -((k : ℚ) * pow2Z (e - 52)) := by
  have hq0 : q ≠ 0 := ne_of_lt h0
  simp only [fl, if_neg hq0, if_pos h0, hl, hr]
  ring

theorem fl_7_20 : fl (7 / 20) = 6305039478318694 / 18014398509481984 := by
  have hl : log2floorQ (7 / 20 : ℚ) = -2 := by norm_num [log2floorQ, lgUp, lgDown]
  have hp : pow2Z (-2 - 52) = ((18014398509481984 : ℚ))⁻¹ := by norm_num [pow2Z, show Int.toNat 54 = 54 from rfl]
  have hr : roundHalfEven ((7 / 20 : ℚ) / pow2Z (-2 - 52)) = 6305039478318694 := by
    rw [hp]
    apply roundHalfEven_lo <;> norm_num
  rw [fl_pos_eq (by norm_num) hl hr, hp]
  norm_num

theorem fl_3_2 : fl (3 / 2) = 3 / 2 := by
  have hl : log2floorQ (3 / 2 : ℚ) = 0 := by norm_num [log2floorQ, lgUp, lgDown]
  have hp : pow2Z (0 - 52) = ((4503599627370496 : ℚ))⁻¹ := by norm_num [pow2Z, show Int.toNat 52 = 52 from rfl]
  have hr : roundHalfEven ((3 / 2 : ℚ) / pow2Z (0 - 52)) = 6755399441055744 := by
    rw [hp]
    apply roundHalfEven_lo <;> norm_num
  rw [fl_pos_eq (by norm_num) hl hr, hp]
  norm_num

theorem fl_prod_35 :
    fl (6305039478318694 / 18014398509481984 * (3 / 2)) =
      4728779608739020 / 9007199254740992 := by
  have hl : log2floorQ (6305039478318694 / 18014398509481984 * (3 / 2) : ℚ) = -1 := by
    norm_num [log2floorQ, lgUp, lgDown]
  have hp : pow2Z (-1 - 52) = ((9007199254740992 : ℚ))⁻¹ := by norm_num [pow2Z, show Int.toNat 53 = 53 from rfl]
  have hr : roundHalfEven
      ((6305039478318694 / 18014398509481984 * (3 / 2) : ℚ) / pow2Z (-1 - 52)) =
      4728779608739020 := by
    rw [hp]
    apply roundHalfEven_half_even
    · norm_num
    · decide
  rw [fl_pos_eq (by norm_num) hl hr, hp]
  norm_num

/-- `(0.35 * 1.5).toFixed(2)` is "0.52": the JavaScript arithmetic yields
`0.5249999999999999…`, below the decimal tie. -/
theorem jsCostCalc_035_150 : jsCostCalc (7 / 20) (3 / 2) = 13 / 25 := by
  rw [jsCostCalc, fl_7_20, fl_3_2, fl_prod_35]
  have ht : toFixed2 (4728779608739020 / 9007199254740992) = 52 := by
    apply qfloor_eq <;> norm_num
  rw [ht]
  norm_num

/-- Fixed-point round-half-up of `0.35 * 1.50 = 0.525` is `0.53`. -/
theorem specCostRound_035_150 : specCostRound (7 / 20) (3 / 2) = 53 / 100 := by
  rw [specCostRound]
  have ht : qfloor (100 * ((7 : ℚ) / 20 * (3 / 2)) + 1 / 2) = 53 := by
    apply qfloor_eq <;> norm_num
  rw [ht]
  norm_num

theorem fl_10 : fl 10 = 10 := by
  have hl : log2floorQ (10 : ℚ) = 3 := by norm_num [log2floorQ, lgUp, lgDown]
  have hp : pow2Z (3 - 52) = ((562949953421312 : ℚ))⁻¹ := by norm_num [pow2Z, show Int.toNat 49 = 49 from rfl]
  have hr : roundHalfEven ((10 : ℚ) / pow2Z (3 - 52)) = 5629499534213120 := by
    rw [hp]
    apply roundHalfEven_lo <;> norm_num
  rw [fl_pos_eq (by norm_num) hl hr, hp]
  norm_num

theorem fl_2 : fl 2 = 2 := by
  have hl : log2floorQ (2 : ℚ) = 1 := by norm_num [log2floorQ, lgUp, lgDown]
  have hp : pow2Z (1 - 52) = ((2251799813685248 : ℚ))⁻¹ := by norm_num [pow2Z, show Int.toNat 51 = 51 from rfl]
  have hr : roundHalfEven ((2 : ℚ) / pow2Z (1 - 52)) = 4503599627370496 := by
    rw [hp]
    apply roundHalfEven_lo <;> norm_num
  rw [fl_pos_eq (by norm_num) hl hr, hp]
  norm_num

theorem fl_20 : fl 20 = 20 := by
  have hl : log2floorQ (20 : ℚ) = 4 := by norm_num [log2floorQ, lgUp, lgDown]
  have hp : pow2Z (4 - 52) = ((281474976710656 : ℚ))⁻¹ := by norm_num [pow2Z, show Int.toNat 48 = 48 from rfl]
  have hr : roundHalfEven ((20 : ℚ) / pow2Z (4 - 52)) = 5629499534213120 := by
    rw [hp]
    apply roundHalfEven_lo <;> norm_num
  rw [fl_pos_eq (by norm_num) hl hr, hp]
  norm_num

theorem jsCostCalc_10_2 : jsCostCalc 10 2 = 20 := by
  rw [jsCostCalc, fl_10, fl_2]
  norm_num
  rw [fl_20]
  have ht : toFixed2 20 = 2000 := by
    apply qfloor_eq <;> norm_num
  rw [ht]
  norm_num

theorem fl_neg5 : fl (-5) = -5 := by
  have hl : log2floorQ (-(-5) : ℚ) = 2 := by norm_num [log2floorQ, lgUp, lgDown]
  have hp : pow2Z (2 - 52) = ((1125899906842624 : ℚ))⁻¹ := by norm_num [pow2Z, show Int.toNat 50 = 50 from rfl]
  have hr : roundHalfEven ((-(-5) : ℚ) / pow2Z (2 - 52)) = 5629499534213120 := by
    rw [hp]
    apply roundHalfEven_lo <;> norm_num
  rw [fl_neg_eq (by norm_num) hl hr, hp]
  norm_num

theorem fl_neg_15_2 : fl (-(15 / 2)) = -(15 / 2) := by
  have hl : log2floorQ (-(-(15 / 2)) : ℚ) = 2 := by norm_num [log2floorQ, lgUp, lgDown]
  have hp : pow2Z (2 - 52) = ((1125899906842624 : ℚ))⁻¹ := by norm_num [pow2Z, show Int.toNat 50 = 50 from rfl]
  have hr : roundHalfEven ((-(-(15 / 2)) : ℚ) / pow2Z (2 - 52)) = 8444249301319680 := by
    rw [hp]
    apply roundHalfEven_lo <;> norm_num
  rw [fl_neg_eq (by norm_num) hl hr, hp]
  norm_num

theorem jsCostCalc_neg5_150 : jsCostCalc (-5) (3 / 2) = -(15 / 2) := by
  rw [jsCostCalc, fl_neg5, fl_3_2]
  norm_num
  rw [fl_neg_15_2]
  have ht : toFixed2 (-(15 / 2)) = -750 := by
    apply qfloor_eq <;> norm_num
  rw [ht]
  norm_num

/-! ## Helper lemmas: result-set membership -/

theorem mem_insertDesc {t u : Trip} {l : List Trip} :
    t ∈ insertDesc u l ↔ t = u ∨ t ∈ l := by
  induction l with
  | nil => simp [insertDesc]
  | cons v vs ih =>
    simp only [insertDesc]
    split
    · simp
    · simp [ih]
      tauto

theorem mem_sortByDateDesc {t : Trip} {l : List Trip} :
    t ∈ sortByDateDesc l ↔ t ∈ l := by
  induction l with
  | nil => simp [sortByDateDesc]
  | cons v vs ih => simp [sortByDateDesc, mem_insertDesc, ih]

/-- Deleting `driverId` from a patch changes neither its clientId nor its
distance, so the cost inputs are unaffected by the sanitization step. -/
theorem effClientId_sanitized (p : TripPatch) (t : Trip) :
    effClientId { p with driverId := none } t = effClientId p t := rfl

theorem effDistance_sanitized (p : TripPatch) (t : Trip) :
    effDistance { p with driverId := none } t = effDistance p t := rfl

/-! ## C1 -/

/-- C1 (amended): on every `createTrip`, and on every `updateTrip` (in
particular those changing `distanceKm` or `clientId`), when the effective
clientId refers to an existing client the persisted `costCalculated` equals
`(Number(distance) * Number(rate)).toFixed(2)` — IEEE-754 binary64
multiplication followed by ECMA-262 `toFixed(2)` rounding — not fixed-point
decimal round-half-up arithmetic. -/
theorem cost_recomputed_binary64_toFixed :
    (∀ (db : DB) (p : InsertTrip) (cid : Nat) (c : Client),
        p.clientId = some cid → cid ≠ 0 → getClient db cid = some c →
        ((createTrip db p).1).costCalculated =
          some (jsCostCalc p.distanceKm c.ratePerKm)) ∧
    (∀ (db : DB) (id : Nat) (p : TripPatch) (scope : Option String) (t : Trip)
        (cid : Nat) (c : Client),
        getTrip db id scope = some t →
        effClientId p t = some cid → cid ≠ 0 → getClient db cid = some c →
        ((updateTrip db id p scope).1).map Trip.costCalculated =
          some (some (jsCostCalc (effDistance p t) c.ratePerKm))) := by
  constructor
  · intro db p cid c hcid hne hc
    simp [createTrip, resolveCost, hcid, hne, hc]
  · intro db id p scope t cid c ht hcid hne hc
    cases scope with
    | none =>
      simp [updateTrip, ht, resolveCost, hcid, hne, hc, applyPatch]
    | some d =>
      simp [updateTrip, ht, resolveCost, effClientId_sanitized, effDistance_sanitized,
        hcid, hne, hc, applyPatch]

/-- C1 witness: creating a 0.35 km trip for the 1.50-rate client, and patching
an existing trip of that client to 0.35 km, both persist the toFixed cost. -/
theorem cost_recomputed_binary64_toFixed_witness :
    ((createTrip dbAcme insert035).1).costCalculated =
      some (jsCostCalc (7 / 20) (3 / 2)) ∧
    ((updateTrip dbAcmeTrip 3 patch035 (some "d1")).1).map Trip.costCalculated =
      some (some (jsCostCalc (7 / 20) (3 / 2))) := by
  constructor
  · have h := cost_recomputed_binary64_toFixed.1 dbAcme insert035 1 clientAcme rfl
      (by decide) rfl
    simpa [insert035, clientAcme] using h
  · have h := cost_recomputed_binary64_toFixed.2 dbAcmeTrip 3 patch035 (some "d1")
      { tripClient10 with id := 3 } 1 clientAcme (by rfl) rfl (by decide) rfl
    simpa [patch035, clientAcme, effDistance] using h

/-- C1 counterexample: the claim as stated — persisted cost equals the
fixed-point decimal round-half-up of `distance * rate` — fails at
distance 0.35 km, rate 1.50: the code persists 0.52 while round-half-up of
0.525 is 0.53. -/
theorem cost_not_decimal_round_half_up :
    ((createTrip dbAcme insert035).1).costCalculated ≠
      some (specCostRound insert035.distanceKm clientAcme.ratePerKm) := by
  have h1 : ((createTrip dbAcme insert035).1).costCalculated =
      some (jsCostCalc (7 / 20) (3 / 2)) := by
    simp [createTrip, resolveCost, dbAcme, insert035, getClient, clientAcme]
  rw [h1, jsCostCalc_035_150]
  have h2 : specCostRound insert035.distanceKm clientAcme.ratePerKm = 53 / 100 := by
    have : insert035.distanceKm = 7 / 20 := rfl
    rw [this, show clientAcme.ratePerKm = 3 / 2 from rfl, specCostRound_035_150]
  rw [h2]
  intro h
  have := Option.some.inj h
  norm_num at this

/-! ## C2 -/

/-- C2: for a driver actor, `GET /api/trips` answers exactly their own trips —
the response does not depend on any supplied query parameters (owner filters
included), and every returned trip is owned by the caller. -/
theorem driver_trip_listing_scoped (db : DB) (uid : String) (q q' : TripsQuery)
    (u : User) (hu : getUser db uid = some u) (hr : u.role = Role.driver) :
    apiGetTrips db uid q = Response.ok 200 (getTrips db (some uid)) ∧
    apiGetTrips db uid q = apiGetTrips db uid q' ∧
    ∀ t ∈ getTrips db (some uid), t.driverId = uid := by
  have hadm : isAdminUser db uid = false := by
    simp [isAdminUser, hu, hr]
  refine ⟨?_, ?_, ?_⟩
  · simp [apiGetTrips, hadm]
  · simp [apiGetTrips, hadm]
  · intro t ht
    simp only [getTrips, mem_sortByDateDesc] at ht
    have := (List.mem_filter.mp ht).2
    exact eq_of_beq this

/-- C2 witness: driver d1 gets the same owned-trip list with no query
parameters and with a foreign `driverId` filter, and the listed trip is their
own. -/
theorem driver_trip_listing_scoped_witness :
    apiGetTrips dbDriver "d1" {} = Response.ok 200 (getTrips dbDriver (some "d1")) ∧
    apiGetTrips dbDriver "d1" {} =
      apiGetTrips dbDriver "d1" { driverId := some "d2" } ∧
    tripD1.driverId = "d1" := by
  have h := driver_trip_listing_scoped dbDriver "d1" {} { driverId := some "d2" }
    userDriver1 (by rfl) rfl
  refine ⟨h.1, h.2.1, h.2.2 tripD1 ?_⟩
  rw [getTrips, mem_sortByDateDesc]
  exact List.mem_filter.mpr ⟨by simp [dbDriver], by simp [tripD1]⟩

/-! ## C3 -/

/-- C3 fails on the code: `insertTripSchema` does not strip `status`, so the
owning driver's PATCH `{"status": "approved"}` on their own draft trip is
accepted and persists status `approved` — out of {draft, submitted}. -/
theorem driver_patch_sets_approved :
    apiPatchTrip dbDriver "d1" 1 approveBody =
      (Response.ok 200 (some { tripD1 with status := TripStatus.approved }),
        { dbDriver with trips := [{ tripD1 with status := TripStatus.approved }] }) := by
  rfl

/-! ## C4 -/

/-- C4: once a trip owned by driver `uid` is approved or rejected, any PATCH by
that driver fails with 403 "Cannot edit processed trips" and the store is
unchanged. -/
theorem driver_edit_processed_rejected (db : DB) (uid : String) (tid : Nat)
    (body : PatchBody) (u : User) (t : Trip)
    (hu : getUser db uid = some u) (hr : u.role = Role.driver)
    (ht : getTrip db tid (some uid) = some t)
    (hs : t.status = TripStatus.approved ∨ t.status = TripStatus.rejected) :
    apiPatchTrip db uid tid body = (Response.fail 403 "Cannot edit processed trips", db) := by
  have hadm : isAdminUser db uid = false := by
    simp [isAdminUser, hu, hr]
  rcases hs with h | h <;> simp [apiPatchTrip, hadm, ht, h]

/-- C4 witness: d1 cannot edit the notes of their own approved trip. -/
theorem driver_edit_processed_rejected_witness :
    apiPatchTrip dbDriverApproved "d1" 2 notesBody =
      (Response.fail 403 "Cannot edit processed trips", dbDriverApproved) :=
  driver_edit_processed_rejected dbDriverApproved "d1" 2 notesBody
    userDriver1 tripApproved (by rfl) rfl (by rfl) (Or.inl rfl)

/-! ## C5 -/

/-- C5 fails on the code: `reviewTrip` never reads the previous status, so an
admin's approve request on a draft (never submitted) trip succeeds with 200 and
persists status `approved`, instead of being rejected as an invalid state. -/
theorem review_ignores_prior_status :
    apiReviewTrip dbAdminDraft "a1" 1 "approve" none =
      (Response.ok 200 { tripD1 with status := TripStatus.approved },
        { dbAdminDraft with trips := [{ tripD1 with status := TripStatus.approved }] }) := by
  rfl

/-! ## C6 -/

/-- C6 fails on the code: PATCHing `{"clientId": null}` onto the 10 km trip of
the 2.00-rate client persists `clientId = NULL` together with
`costCalculated = 20.00`, the cost computed from the removed client's rate —
`??` makes the null clientId fall back to the existing client for the cost
computation while the row update still writes the NULL. -/
theorem client_removal_keeps_stale_cost :
    ((updateTrip dbStale 1 removeClientPatch none).1).map Trip.clientId =
      some none ∧
    ((updateTrip dbStale 1 removeClientPatch none).1).map Trip.costCalculated =
      some (some 20) := by
  constructor <;>
    simp [updateTrip, getTrip, resolveCost, effClientId, effDistance, getClient,
      jsCostCalc_10_2, applyPatch, removeClientPatch, tripClient10, clientBeta, dbStale]

/-! ## C7 -/

/-- C7: for an admin caller, `DELETE /api/clients/:id` on a client with at
least one referencing trip answers 400 "Cannot delete client with associated
trips" and leaves the store untouched; on a client with no referencing trips
it answers 204 and removes exactly that client row, leaving trips and users
untouched. -/
theorem deleteClient_reference_guard (db : DB) (uid : String) (cid : Nat) (u : User)
    (hu : getUser db uid = some u) (hr : u.role = Role.admin) :
    ((∃ t ∈ db.trips, t.clientId = some cid) →
        apiDeleteClient db uid cid =
          (Response.fail 400 "Cannot delete client with associated trips", db)) ∧
    ((∀ t ∈ db.trips, t.clientId ≠ some cid) →
        apiDeleteClient db uid cid =
          (Response.ok 204 (),
            { db with clients := db.clients.filter (fun c => !(c.id == cid)) })) := by
  have hadm : isAdminUser db uid = true := by
    simp [isAdminUser, hu, hr]
  constructor
  · rintro ⟨t, htm, hteq⟩
    have hmem : t ∈ db.trips.filter (fun t => t.clientId == some cid) :=
      List.mem_filter.mpr ⟨htm, by simp [hteq]⟩
    have hlen : 0 < (db.trips.filter (fun t => t.clientId == some cid)).length :=
      List.length_pos_of_mem hmem
    simp [apiDeleteClient, hadm, deleteClient, hlen]
  · intro hall
    have hnil : db.trips.filter (fun t => t.clientId == some cid) = [] := by
      rw [List.filter_eq_nil_iff]
      intro t htm
      simpa using hall t htm
    simp [apiDeleteClient, hadm, deleteClient, hnil]

/-- C7 witness: deleting client 1 fails on the store where a trip references
it and succeeds on the store where none does. -/
theorem deleteClient_reference_guard_witness :
    apiDeleteClient dbStale "a1" 1 =
      (Response.fail 400 "Cannot delete client with associated trips", dbStale) ∧
    apiDeleteClient dbAdminNoRef "a1" 1 =
      (Response.ok 204 (),
        { dbAdminNoRef with
            clients := dbAdminNoRef.clients.filter (fun c => !(c.id == 1)) }) := by
  constructor
  · exact (deleteClient_reference_guard dbStale "a1" 1 userAdmin (by rfl) rfl).1
      ⟨tripClient10, by simp [dbStale], rfl⟩
  · exact (deleteClient_reference_guard dbAdminNoRef "a1" 1 userAdmin (by rfl) rfl).2
      (by intro t htm; simp [dbAdminNoRef] at htm)

/-! ## C8 -/

/-- C8 fails on the code: nothing validates the sign of `distanceKm`
(drizzle-zod gives the decimal column a bare string schema), so a POST with
distance −5 km for the 1.50-rate client is accepted with 201 and creates a
trip with distance −5 and cost −7.50. -/
theorem negative_distance_trip_created :
    (apiCreateTrip dbAcme "d1" negDistanceBody 0).1 =
      Response.ok 201
        { id := 1, driverId := "d1", clientId := some 1, distanceKm := -5,
          tripDate := 0, status := TripStatus.submitted, notes := none,
          adminNotes := none, costCalculated := some (-(15 / 2)) } ∧
    (apiCreateTrip dbAcme "d1" negDistanceBody 0).2.trips =
      [{ id := 1, driverId := "d1", clientId := some 1, distanceKm := -5,
         tripDate := 0, status := TripStatus.submitted, notes := none,
         adminNotes := none, costCalculated := some (-(15 / 2)) }] := by
  constructor <;>
    simp [apiCreateTrip, createTrip, negDistanceBody, dbAcme, resolveCost, getClient,
      clientAcme, jsCostCalc_neg5_150]

/-! ## C9 -/

/-- C9: for a driver actor, fetching a trip id whose every matching row belongs
to someone else — which covers both another driver's trip and a nonexistent
id — produces the very same 404 "Trip not found" response, and never a 403. -/
theorem foreign_trip_fetch_not_found (db : DB) (uid : String) (tid : Nat) (u : User)
    (hu : getUser db uid = some u) (hr : u.role = Role.driver)
    (hown : ∀ t ∈ db.trips, t.id = tid → t.driverId ≠ uid) :
    apiGetTrip db uid tid = Response.fail 404 "Trip not found" ∧
    ∀ m : String, apiGetTrip db uid tid ≠ Response.fail 403 m := by
  have hadm : isAdminUser db uid = false := by
    simp [isAdminUser, hu, hr]
  have hfind : getTrip db tid (some uid) = none := by
    rw [getTrip]
    apply List.find?_eq_none.mpr
    intro t htm
    simp only [Bool.and_eq_true, beq_iff_eq, not_and]
    exact fun h1 => hown t htm h1
  constructor
  · simp [apiGetTrip, hadm, hfind]
  · intro m
    simp [apiGetTrip, hadm, hfind]

/-- C9 witness: driver d2 fetching d1's trip gets the nonexistent-id outcome,
not a 403. -/
theorem foreign_trip_fetch_not_found_witness :
    apiGetTrip dbTwoDrivers "d2" 1 = Response.fail 404 "Trip not found" ∧
    apiGetTrip dbTwoDrivers "d2" 1 ≠ Response.fail 403 "Forbidden" := by
  have h := foreign_trip_fetch_not_found dbTwoDrivers "d2" 1 userDriver2 (by rfl) rfl
    (by
      intro t htm h1
      simp only [dbTwoDrivers, List.mem_singleton] at htm
      subst htm
      simp [tripD1])
  exact ⟨h.1, h.2 "Forbidden"⟩

/-! ## C10 -/

/-- C10: a driver-scoped `updateTrip` deletes `driverId` from the payload, so
the updated trip keeps its owner no matter what driverId the request carried. -/
theorem driver_scoped_update_preserves_owner (db : DB) (tid : Nat) (p : TripPatch)
    (d : String) (t : Trip) (ht : getTrip db tid (some d) = some t) :
    ((updateTrip db tid p (some d)).1).map Trip.driverId = some t.driverId := by
  simp [updateTrip, ht, applyPatch]

/-- C10 witness: d1's scoped update carrying `driverId := "d2"` leaves the
trip owned by d1. -/
theorem driver_scoped_update_preserves_owner_witness :
    ((updateTrip dbDriver 1 reassignPatch (some "d1")).1).map Trip.driverId =
      some tripD1.driverId :=
  driver_scoped_update_preserves_owner dbDriver 1 reassignPatch "d1" tripD1 (by rfl)

end TowCrm
